import Mathlib

/-!
Verification of the VPN connection lifecycle engine
(`proton/vpn/connection`): state machine (`states.py`), event taxonomy
(`events.py`), connector dispatch (`vpnconnector.py`), publisher
(`publisher.py`) and connection persistence (`persistence.py`).

All definitions are shallow embeddings of the corresponding Python code.
Python object identity is modelled by giving every connection object a
numeric `id`; distinct objects are represented by distinct ids.
Python exceptions are modelled with `Except`; the asynchronous side
effects performed by the state task runners are modelled as explicit
effect traces.
-/

set_option autoImplicit false

namespace ProtonVPN

/-- A VPN connection object (`VPNConnection`). Only the parts of the
object the lifecycle engine reads are modelled: its identity (`id`,
standing for Python object identity) and its `killswitch` attribute,
consulted by `State.is_killswitch_enabled`. -/
structure VPNConn where
  id : Nat
  killswitch : Option Nat := none
deriving DecidableEq, Repr

/-- Value of `KillSwitchState.ON.value` (external
`proton.vpn.killswitch.interface` package): the setting meaning the kill
switch is enabled. -/
def killSwitchOn : Nat := 1

/-- Modelled from the spec: the `PERMANENT` kill-switch setting value
(`killswitch: 0 | 1 | 2` in the persistence file format, `OFF | ON |
PERMANENT`); the enum itself lives in an external package. -/
def killSwitchPermanent : Nat := 2

/-- The event variants of `events.py` (`Up`, `Down`, `Connected`,
`Disconnected` and the five subclasses of the abstract `Error` class). -/
inductive EventType
  | up
  | down
  | connected
  | disconnected
  | deviceDisconnected
  | timeout
  | authDenied
  | tunnelSetupFailed
  | unexpectedError
deriving DecidableEq, Repr

/-- Whether the event class is a subclass of `events.Error`
(`DeviceDisconnected`, `Timeout`, `AuthDenied`, `TunnelSetupFailed`,
`UnexpectedError`). -/
def EventType.isErrorGroup : EventType → Bool
  | .deviceDisconnected => true
  | .timeout => true
  | .authDenied => true
  | .tunnelSetupFailed => true
  | .unexpectedError => true
  | _ => false

/-- An event together with its `EventContext.connection`. The
`connection` field is typed `Option` because in practice `None` can be
carried (e.g. `VPNConnector.disconnect` when there is no current
connection). -/
structure Event where
  etype : EventType
  connection : Option VPNConn
deriving DecidableEq, Repr

/-- The lifecycle state classes of `states.py`. -/
inductive StateType
  | disconnected
  | connecting
  | connected
  | disconnecting
  | error
deriving DecidableEq, Repr

/-- `StateContext`: the event that led to the state, the current
connection and the optional queued reconnection. -/
structure StateContext where
  event : Option Event := none
  connection : Option VPNConn := none
  reconnection : Option VPNConn := none
deriving DecidableEq, Repr

/-- A state object: its class plus its `StateContext`. -/
structure State where
  stype : StateType
  context : StateContext
deriving DecidableEq, Repr

/-- `states.Disconnected(context)`. -/
def Disconnected (context : StateContext) : State := ⟨.disconnected, context⟩

/-- `states.Connecting(context)`. -/
def Connecting (context : StateContext) : State := ⟨.connecting, context⟩

/-- `states.Connected(context)`. -/
def Connected (context : StateContext) : State := ⟨.connected, context⟩

/-- `states.Disconnecting(context)`. -/
def Disconnecting (context : StateContext) : State := ⟨.disconnecting, context⟩

/-- `states.Error(context)`. -/
def Error (context : StateContext) : State := ⟨.error, context⟩

/-- The `_on_event` methods of the five state classes, in source order.
The result's `Bool` component records whether the returned object is the
receiver itself (`new_state is self` in `State.on_event` and in
`VPNConnector._process_connection_event`); in the `Disconnecting` + `Up`
case the receiver is returned after mutating `self.context.reconnection`
in place, which the embedding renders by returning the updated state
value together with `true`. -/
def State.onEventCore (s : State) (e : Event) : State × Bool :=
  match s.stype with
  | .disconnected =>
    if e.etype = .up then (Connecting ⟨some e, e.connection, none⟩, false)
    else (s, true)
  | .connecting =>
    if e.etype = .connected then (Connected ⟨some e, e.connection, none⟩, false)
    else if e.etype = .down then (Disconnecting ⟨some e, e.connection, none⟩, false)
    else if e.etype.isErrorGroup then (Error ⟨some e, e.connection, none⟩, false)
    else if e.etype = .up then
      (Disconnecting ⟨some e, s.context.connection, e.connection⟩, false)
    else if e.etype = .disconnected then (Disconnected ⟨some e, e.connection, none⟩, false)
    else (s, true)
  | .connected =>
    if e.etype = .down then (Disconnecting ⟨some e, e.connection, none⟩, false)
    else if e.etype = .up then
      (Disconnecting ⟨some e, s.context.connection, e.connection⟩, false)
    else if e.etype.isErrorGroup then (Error ⟨some e, e.connection, none⟩, false)
    else if e.etype = .disconnected then (Disconnected ⟨some e, e.connection, none⟩, false)
    else (s, true)
  | .disconnecting =>
    if e.etype = .disconnected then
      (Disconnected ⟨some e, e.connection, s.context.reconnection⟩, false)
    else if e.etype = .up then
      ({ s with context := { s.context with reconnection := e.connection } }, true)
    else (s, true)
  | .error =>
    if e.etype = .down then (Disconnected ⟨some e, e.connection, none⟩, false)
    else if e.etype = .up then (Connecting ⟨some e, e.connection, none⟩, false)
    else (s, true)

/-- The Python exceptions surfacing through the embedded operations. -/
inductive PyErr
  | concurrentConnectionsError
  | attributeError
deriving DecidableEq, Repr

/-- `State.on_event`: first `_assert_no_concurrent_connections` (raise
`ConcurrentConnectionsError` when a non-`Up` event carries a connection
that is not the state's connection), then dispatch to `_on_event`. -/
def State.on_event (s : State) (e : Event) : Except PyErr (State × Bool) :=
  if e.etype ≠ EventType.up ∧ e.connection ≠ s.context.connection then
    Except.error PyErr.concurrentConnectionsError
  else
    Except.ok (s.onEventCore e)

/-- `State.is_killswitch_enabled` applied to the state's connection:
`connection.killswitch is not None and connection.killswitch ==
KillSwitchState.ON.value`. -/
def killswitchEnabled (c : VPNConn) : Bool :=
  decide (c.killswitch = some killSwitchOn)

/-- The side effects performed by the state task runners and the
connector (each backend coroutine awaited, plus the publisher
notification). -/
inductive Effect
  | disable_ipv6_leak_protection (c : VPNConn)
  | disable_killswitch (c : VPNConn)
  | remove_persistence (c : VPNConn)
  | enable_ipv6_leak_protection (c : VPNConn)
  | enable_killswitch_routed (c : VPNConn)
  | enable_killswitch_full (c : VPNConn)
  | add_persistence (c : VPNConn)
  | start (c : VPNConn)
  | stop (c : VPNConn)
  | unregister_callback (c : VPNConn)
  | notify_subscribers
deriving DecidableEq, Repr

/-- The `run_tasks` coroutines of the five state classes: the effect
trace they await plus the optional follow-up event they return. `none`
models the `AttributeError` raised when a method is called on a missing
(`None`) connection. -/
def State.run_tasks (s : State) : Option (List Effect × Option Event) :=
  match s.stype with
  | .disconnected =>
    match s.context.connection with
    | none => some ([], none)
    | some c =>
      match s.context.reconnection with
      | some r => some ([], some ⟨.up, some r⟩)
      | none =>
        some ([.disable_ipv6_leak_protection c, .disable_killswitch c,
               .remove_persistence c], none)
  | .connecting =>
    match s.context.connection with
    | none => none
    | some c =>
      some ([Effect.enable_ipv6_leak_protection c]
              ++ (if killswitchEnabled c then [Effect.enable_killswitch_routed c] else [])
              ++ [Effect.start c], none)
  | .connected =>
    match s.context.connection with
    | none => none
    | some c =>
      some ((if killswitchEnabled c then [Effect.enable_killswitch_full c] else [])
              ++ [Effect.add_persistence c], none)
  | .disconnecting =>
    match s.context.connection with
    | none => none
    | some c => some ([Effect.stop c], none)
  | .error =>
    match s.context.connection with
    | none => none
    | some c => some ([Effect.stop c], none)

/-- `VPNConnector.is_connection_ongoing`: the current state is neither
`Disconnected` nor `Error`. -/
def is_connection_ongoing (s : State) : Bool :=
  !(s.stype = .disconnected || s.stype = .error)

/-- The interface the connector's dispatch code uses on the state object
it holds (`on_event`, `run_tasks`) and on itself
(`is_connection_ongoing`, the state context's connection). Python
dispatches these dynamically, so the dispatch loop is embedded
parametrically in this interface, exactly as the repository's own test
suite exercises it with mock states. -/
structure Machine (σ ε : Type) where
  on_event : σ → ε → Except PyErr (σ × Bool)
  run_tasks : σ → Option (List Effect × Option ε)
  ongoing : σ → Bool
  connection : σ → Option VPNConn

/-- `VPNConnector._process_connection_event` together with
`_update_state`: run `on_event` under the lock; if the returned object
is the current state, return no follow-up event (the possibly mutated
object stays current); otherwise commit the new state, unregister the
connector's callback from the connection if the connection ended, await
the new state's `run_tasks` for its follow-up event, and notify the
publisher's subscribers. -/
def Machine.process_connection_event {σ ε : Type} (M : Machine σ ε) (cur : σ) (e : ε) :
    Except PyErr (σ × List Effect × Option ε) :=
  match M.on_event cur e with
  | .error pe => .error pe
  | .ok (st, true) => .ok (st, [], none)
  | .ok (st, false) =>
    match M.run_tasks st with
    | none => .error .attributeError
    | some (effs, ev) =>
      let unreg :=
        if !M.ongoing st then
          match M.connection st with
          | some c => [Effect.unregister_callback c]
          | none => []
        else []
      .ok (st, unreg ++ effs ++ [Effect.notify_subscribers], ev)

/-- `VPNConnector._on_connection_event`: process the event and, if a new
event was generated by the new state's tasks, recursively dispatch it.
The Python recursion carries no counter; the embedding supplies `fuel`
only to express the recursion in Lean, with `none` meaning the dispatch
is still looping after `fuel` cascaded events. -/
def Machine.on_connection_event {σ ε : Type} (M : Machine σ ε) :
    Nat → σ → ε → Option (Except PyErr (σ × List Effect))
  | 0, _, _ => none
  | fuel + 1, cur, e =>
    match M.process_connection_event cur e with
    | .error pe => some (.error pe)
    | .ok (st, effs, none) => some (.ok (st, effs))
    | .ok (st, effs, some e2) =>
      match M.on_connection_event fuel st e2 with
      | none => none
      | some (.error pe) => some (.error pe)
      | some (.ok (st2, effs2)) => some (.ok (st2, effs ++ effs2))

/-- Feeding a sequence of externally generated events (user calls and
backend callbacks) through `_on_connection_event`, accumulating the
effect traces. -/
def Machine.process_events {σ ε : Type} (M : Machine σ ε) (fuel : Nat) :
    σ → List ε → Option (Except PyErr (σ × List Effect))
  | s, [] => some (.ok (s, []))
  | s, e :: rest =>
    match M.on_connection_event fuel s e with
    | none => none
    | some (.error pe) => some (.error pe)
    | some (.ok (s2, effs)) =>
      match M.process_events fuel s2 rest with
      | none => none
      | some (.error pe) => some (.error pe)
      | some (.ok (s3, effs2)) => some (.ok (s3, effs ++ effs2))

/-- The connector's dispatch instantiated with the real state classes of
`states.py`. -/
def vpnMachine : Machine State Event :=
  ⟨State.on_event, State.run_tasks, is_connection_ongoing, fun s => s.context.connection⟩

/-- A state machine whose `on_event` always yields a fresh state and
whose `run_tasks` always returns a follow-up event — the runaway
feedback loop of the cascade-bound claim (the repository's tests build
such machines with mocks). -/
def loopMachine : Machine Nat Unit :=
  ⟨fun n _ => .ok (n + 1, false), fun _ => some ([], some ()), fun _ => true, fun _ => none⟩

/-- A publisher subscriber object (`publisher.py`). Identity is
modelled by `id`; `raises` records whether its `status_update` callback
raises when invoked. -/
structure Subscriber where
  id : Nat
  raises : Bool
deriving DecidableEq, Repr

/-- The exceptions surfacing from the publisher embedding: the
`ValueError` raised by `list.remove` on a missing element, and an
exception propagating out of a subscriber's `status_update` callback. -/
inductive PubErr
  | valueError
  | subscriberException (i : Nat)
deriving DecidableEq, Repr

/-- `list.remove(x)`: delete the first occurrence, or raise `ValueError`
(`none`) when the element is not in the list. -/
def listRemove {α : Type} [DecidableEq α] : List α → α → Option (List α)
  | [], _ => none
  | x :: xs, a => if x = a then some xs else (listRemove xs a).map (x :: ·)

/-- `Publisher.register`: duplicate registrations are ignored, otherwise
the subscriber is appended to the subscriber list. (The `None` check is
not modelled; the claims only quantify over actual subscribers.) -/
def Publisher.register (subs : List Subscriber) (who : Subscriber) : List Subscriber :=
  if who ∈ subs then subs else subs ++ [who]

/-- `Publisher.unregister`: `self.__subscribers.remove(who)` wrapped in
`try ... except KeyError: pass`. `list.remove` raises `ValueError` — not
`KeyError` — for an absent element, so that exception propagates. -/
def Publisher.unregister (subs : List Subscriber) (who : Subscriber) :
    Except PubErr (List Subscriber) :=
  match listRemove subs who with
  | some subs2 => .ok subs2
  | none => .error .valueError

/-- `Publisher._notify_subscribers`: call `subscriber.status_update` on
each subscriber in list order, with no exception handling around the
loop body. Returns the ids of the subscribers whose callback was
invoked and ran to completion plus the exception, if one propagated (the
raiser's callback was invoked but the loop stops there). -/
def Publisher.notify_subscribers : List Subscriber → List Nat × Option PubErr
  | [] => ([], none)
  | s :: rest =>
    if s.raises then ([], some (.subscriberException s.id))
    else
      let r := Publisher.notify_subscribers rest
      (s.id :: r.1, r.2)

/-- A JSON scalar value as stored in the persistence file. -/
inductive JValue
  | jstr (s : String)
  | jint (n : Int)
deriving DecidableEq, Repr

/-- The observable content of the persistence file: missing, text that
`json.load` rejects with `JSONDecodeError`, or a JSON object. -/
inductive FileContent
  | missing
  | invalidJson
  | obj (kvs : List (String × JValue))
deriving DecidableEq, Repr

/-- `ConnectionParameters` (`persistence.py`): the persisted record.
The five identifier fields are annotated `str` in the Python dataclass
but CPython stores whatever JSON value is read back, so they are
modelled as JSON values (a valid record carries `jstr` in each);
`killswitch` is coerced with `int()` on load, hence `Int`. -/
structure ConnectionParameters where
  connection_id : JValue
  backend : JValue
  protocol : JValue
  server_id : JValue
  server_name : JValue
  killswitch : Int
deriving DecidableEq, Repr

/-- The exception surfacing from `ConnectionPersistence.load`: the
`ValueError` raised by `int()` on an unparsable string.
(`JSONDecodeError` and `KeyError` are caught inside `load`.) -/
inductive PersistErr
  | valueError
deriving DecidableEq, Repr

/-- The numeric value of a decimal digit character, or `none`. -/
def pyDigit (c : Char) : Option Nat :=
  if '0' ≤ c ∧ c ≤ '9' then some (c.toNat - '0'.toNat) else none

/-- Decimal-parse a non-empty, all-digit character list. -/
def pyNatOfChars : List Char → Option Nat
  | [] => none
  | cs =>
    cs.foldl
      (fun acc c =>
        match acc, pyDigit c with
        | some n, some d => some (n * 10 + d)
        | _, _ => none)
      (some 0)

/-- Python `int(string)`: an optional leading minus sign followed by at
least one decimal digit, otherwise `ValueError` (`none`). -/
def pyIntOfString (s : String) : Option Int :=
  match s.data with
  | '-' :: rest => (pyNatOfChars rest).map (fun n => -(n : Int))
  | cs => (pyNatOfChars cs).map (fun n => (n : Int))

/-- Python `int(value)`: the identity on integers; on a string, parse it
as a (signed) decimal integer or raise `ValueError`. -/
def pyInt : JValue → Except PersistErr Int
  | .jint n => .ok n
  | .jstr s =>
    match pyIntOfString s with
    | some n => .ok n
    | none => .error .valueError

/-- `dict[key]` lookup on a JSON object (first occurrence of the key). -/
def lookupKey (kvs : List (String × JValue)) (k : String) : Option JValue :=
  (kvs.find? (fun kv => kv.1 = k)).map (fun kv => kv.2)

/-- `ConnectionPersistence.load`: `None` when the file is missing;
reading the six keys from the parsed JSON object, with `killswitch`
defaulted to `0` when absent and coerced with `int()`. `JSONDecodeError`
and `KeyError` are caught (logged, `None` returned); the `ValueError`
that `int()` can raise is not caught and propagates. -/
def ConnectionPersistence.load (file : FileContent) :
    Except PersistErr (Option ConnectionParameters) :=
  match file with
  | .missing => .ok none
  | .invalidJson => .ok none
  | .obj kvs =>
    match lookupKey kvs "connection_id", lookupKey kvs "backend",
          lookupKey kvs "protocol", lookupKey kvs "server_id",
          lookupKey kvs "server_name" with
    | some cid, some b, some p, some sid, some sn =>
      match pyInt ((lookupKey kvs "killswitch").getD (.jint 0)) with
      | .ok k => .ok (some ⟨cid, b, p, sid, sn, k⟩)
      | .error pe => .error pe
    | _, _, _, _, _ => .ok none

/-- `ConnectionPersistence.save`: `json.dump(connection_parameters.__dict__, file)`
— the file now holds the JSON object with the dataclass fields in
declaration order. -/
def ConnectionPersistence.save (p : ConnectionParameters) : FileContent :=
  .obj [("connection_id", p.connection_id), ("backend", p.backend),
        ("protocol", p.protocol), ("server_id", p.server_id),
        ("server_name", p.server_name), ("killswitch", .jint p.killswitch)]

/-- A persistence file holding a well-formed JSON object with every
required key present, but whose `killswitch` value is the string
`"on"`, which `int()` cannot parse. -/
def malformedKillswitchFile : FileContent :=
  .obj [("connection_id", .jstr "id-1"), ("backend", .jstr "backend-1"),
        ("protocol", .jstr "protocol-1"), ("server_id", .jstr "server-1"),
        ("server_name", .jstr "Server 1"), ("killswitch", .jstr "on")]

/-- On the runaway machine, the dispatch recursion of
`VPNConnector._on_connection_event` never returns, whatever the fuel:
each processed event produces a fresh state together with a follow-up
event, and the code carries no cascade counter that could stop it. -/
theorem loopMachine_dispatch_never_returns (n : Nat) : ∀ s : Nat,
    loopMachine.on_connection_event n s () = none := by
  induction n with
  | zero => intro s; rfl
  | succ n ih =>
    intro s
    have h : loopMachine.process_connection_event s ()
        = Except.ok (s + 1, [Effect.notify_subscribers], some ()) := rfl
    simp [Machine.on_connection_event, h, ih]

/-- Claim C1 (code behavior at the failing input). An Error-group event
(`UnexpectedError`, as in the repository's own
`test_disconnecting_on_event_transitions`) received in `Disconnecting`
leaves the machine in the same `Disconnecting` state (the event falls
through `Disconnecting._on_event`, which matches only `Disconnected` and
`Up`), instead of yielding the `Disconnected` state carrying the queued
reconnection that the transition matrix of spec section 4.3 names. -/
theorem c1_disconnecting_error_event_keeps_disconnecting :
    (Disconnecting ⟨none, some ⟨1, none⟩, some ⟨2, none⟩⟩).on_event
        ⟨EventType.unexpectedError, some ⟨1, none⟩⟩
      = Except.ok (Disconnecting ⟨none, some ⟨1, none⟩, some ⟨2, none⟩⟩, true) := rfl

/-- Claim C2 (counterexample). The dispatcher does not abort with a
fatal error after at most 99 cascaded events: on a machine whose every
event produces a fresh state and a follow-up event, the dispatch
recursion is still running after 150 cascaded events — there is no
cascade counter in `VPNConnector._on_connection_event` at all. -/
theorem c2_no_fatal_abort_after_99_events :
    loopMachine.on_connection_event 150 0 () = none ∧ 99 < 150 :=
  ⟨loopMachine_dispatch_never_returns 150 0, by norm_num⟩

/-- Claim C2 (amended). `VPNConnector._on_connection_event` re-dispatches
follow-up events recursively with no counter and no bound: on a state
machine whose task runner always returns a follow-up event that changes
the state, the dispatch never returns, whatever amount of fuel it is
given — there is no fatal-error abort after 99 (or any number of)
cascaded events. -/
theorem c2_dispatch_has_no_cascade_cap (n s : Nat) :
    loopMachine.on_connection_event n s () = none :=
  loopMachine_dispatch_never_returns n s

/-- Claim C3. A `Disconnected` state holding a connection and a pending
reconnection returns `Up(reconnection)` from `run_tasks` immediately,
with an empty effect trace (no `disable_ipv6_leak_protection`, no
`disable_killswitch`, no `remove_persistence`); consequently the whole
reconnection cascade from `Connected(conn1)` receiving `Up(conn2)`
through to `Connected(conn2)` never invokes
`disable_ipv6_leak_protection` (nor `disable_killswitch`). -/
theorem c3_reconnection_preserves_leak_protection :
    (∀ (ev : Option Event) (c r : VPNConn),
      (Disconnected ⟨ev, some c, some r⟩).run_tasks
        = some ([], some ⟨EventType.up, some r⟩))
    ∧ ∀ c1 c2 : VPNConn, ∃ effs : List Effect,
        vpnMachine.process_events 10 (Connected ⟨none, some c1, none⟩)
            [⟨EventType.up, some c2⟩, ⟨EventType.disconnected, some c1⟩,
             ⟨EventType.connected, some c2⟩]
          = some (Except.ok
              (Connected ⟨some ⟨EventType.connected, some c2⟩, some c2, none⟩, effs))
        ∧ (∀ c, Effect.disable_ipv6_leak_protection c ∉ effs)
        ∧ (∀ c, Effect.disable_killswitch c ∉ effs) := by
  constructor
  · intro ev c r
    rfl
  · intro c1 c2
    by_cases h : killswitchEnabled c2
    · refine ⟨[Effect.stop c1, Effect.notify_subscribers, Effect.unregister_callback c1,
        Effect.notify_subscribers, Effect.enable_ipv6_leak_protection c2,
        Effect.enable_killswitch_routed c2, Effect.start c2, Effect.notify_subscribers,
        Effect.enable_killswitch_full c2, Effect.add_persistence c2,
        Effect.notify_subscribers], ?_, ?_, ?_⟩
      · simp [vpnMachine, Machine.process_events, Machine.on_connection_event,
          Machine.process_connection_event, State.on_event, State.onEventCore,
          State.run_tasks, is_connection_ongoing, Connected, Connecting,
          Disconnected, Disconnecting, EventType.isErrorGroup, h]
      · intro c; simp
      · intro c; simp
    · refine ⟨[Effect.stop c1, Effect.notify_subscribers, Effect.unregister_callback c1,
        Effect.notify_subscribers, Effect.enable_ipv6_leak_protection c2,
        Effect.start c2, Effect.notify_subscribers, Effect.add_persistence c2,
        Effect.notify_subscribers], ?_, ?_, ?_⟩
      · simp [vpnMachine, Machine.process_events, Machine.on_connection_event,
          Machine.process_connection_event, State.on_event, State.onEventCore,
          State.run_tasks, is_connection_ongoing, Connected, Connecting,
          Disconnected, Disconnecting, EventType.isErrorGroup, h]
      · intro c; simp
      · intro c; simp

/-- Claim C4. For every state and every event: a non-`Up` event whose
connection is a different object than the state's connection makes
`on_event` raise `ConcurrentConnectionsError` instead of returning a
state, while an `Up` event never raises it, whatever connection it
carries. -/
theorem c4_concurrent_connections_guard (s : State) (e : Event) :
    (e.etype ≠ EventType.up → e.connection ≠ s.context.connection →
      s.on_event e = Except.error PyErr.concurrentConnectionsError)
    ∧ (e.etype = EventType.up → s.on_event e = Except.ok (s.onEventCore e)) := by
  constructor
  · intro h1 h2
    simp [State.on_event, h1, h2]
  · intro h
    simp [State.on_event, h]

/-- Witness for claim C4 at a concrete state and concrete events: a
`Down` event from a different connection raises the error; an `Up` event
from that same different connection does not. -/
theorem c4_concurrent_connections_guard_witness :
    (Connected ⟨none, some ⟨1, none⟩, none⟩).on_event ⟨EventType.down, some ⟨2, none⟩⟩
      = Except.error PyErr.concurrentConnectionsError
    ∧ (Connected ⟨none, some ⟨1, none⟩, none⟩).on_event ⟨EventType.up, some ⟨2, none⟩⟩
      = Except.ok ((Connected ⟨none, some ⟨1, none⟩, none⟩).onEventCore
          ⟨EventType.up, some ⟨2, none⟩⟩) :=
  ⟨(c4_concurrent_connections_guard (Connected ⟨none, some ⟨1, none⟩, none⟩)
      ⟨EventType.down, some ⟨2, none⟩⟩).1 (by decide) (by decide),
   (c4_concurrent_connections_guard (Connected ⟨none, some ⟨1, none⟩, none⟩)
      ⟨EventType.up, some ⟨2, none⟩⟩).2 rfl⟩

/-- Claim C5 (counterexample). With the kill-switch setting `PERMANENT`
on the connection, a `Disconnected` state with a current connection and
no pending reconnection still awaits `disable_killswitch`:
`Disconnected.run_tasks` gathers all three teardown coroutines
unconditionally and never consults the kill-switch setting. -/
theorem c5_permanent_killswitch_not_skipped :
    (Disconnected ⟨none, some ⟨1, some killSwitchPermanent⟩, none⟩).run_tasks
      = some ([Effect.disable_ipv6_leak_protection ⟨1, some killSwitchPermanent⟩,
               Effect.disable_killswitch ⟨1, some killSwitchPermanent⟩,
               Effect.remove_persistence ⟨1, some killSwitchPermanent⟩], none)
    ∧ Effect.disable_killswitch ⟨1, some killSwitchPermanent⟩
        ∈ [Effect.disable_ipv6_leak_protection ⟨1, some killSwitchPermanent⟩,
           Effect.disable_killswitch ⟨1, some killSwitchPermanent⟩,
           Effect.remove_persistence ⟨1, some killSwitchPermanent⟩] :=
  ⟨rfl, by simp⟩

/-- Claim C5 (amended). For every `Disconnected` state with a current
connection and no pending reconnection, `run_tasks` concurrently awaits
`disable_ipv6_leak_protection`, `disable_killswitch` and
`remove_persistence` and returns no event, unconditionally: the
kill-switch setting (including `PERMANENT`) is not consulted and
`disable_killswitch` is never skipped. -/
theorem c5_disconnected_run_tasks_unconditional (ev : Option Event) (c : VPNConn) :
    (Disconnected ⟨ev, some c, none⟩).run_tasks
      = some ([Effect.disable_ipv6_leak_protection c, Effect.disable_killswitch c,
               Effect.remove_persistence c], none) := rfl

/-- Claim C6 (counterexample). With two registered subscribers where the
first raises, notification stops at the first subscriber: its exception
propagates and the subscriber registered after it never receives the
notification. -/
theorem c6_failing_subscriber_blocks_later_subscribers :
    Publisher.notify_subscribers [⟨1, true⟩, ⟨2, false⟩]
      = ([], some (PubErr.subscriberException 1))
    ∧ 2 ∉ (Publisher.notify_subscribers [⟨1, true⟩, ⟨2, false⟩]).1 := by
  refine ⟨rfl, ?_⟩
  simp [Publisher.notify_subscribers]

/-- Claim C6 (amended). `_notify_subscribers` invokes subscribers in
insertion order but stops at the first subscriber whose callback raises:
the exception propagates out of the notification loop and the
subscribers registered after the failing one are not notified. -/
theorem c6_notify_in_insertion_order_until_first_failure (subs : List Subscriber) :
    Publisher.notify_subscribers subs
      = ((subs.takeWhile (fun s => !s.raises)).map Subscriber.id,
         (subs.find? (fun s => s.raises)).map
           (fun s => PubErr.subscriberException s.id)) := by
  induction subs with
  | nil => rfl
  | cons s rest ih =>
    by_cases h : s.raises
    · simp [Publisher.notify_subscribers, List.takeWhile_cons, List.find?_cons, h]
    · simp [Publisher.notify_subscribers, List.takeWhile_cons, List.find?_cons, h, ih]

/-- Claim C7. Saving a connection-parameters record and loading it back
returns the same record, for every record. -/
theorem c7_persistence_round_trip (p : ConnectionParameters) :
    ConnectionPersistence.load (ConnectionPersistence.save p) = Except.ok (some p) := rfl

/-- Claim C8 (code behavior at the failing input). Unregistering a
subscriber that is not registered propagates `ValueError`:
`list.remove` raises `ValueError` for an absent element and the
`except KeyError` clause does not catch it — both on an empty subscriber
list and on a non-empty one not containing the subscriber. -/
theorem c8_unregister_unregistered_raises_value_error :
    Publisher.unregister [] ⟨1, false⟩ = Except.error PubErr.valueError
    ∧ Publisher.unregister [⟨2, false⟩] ⟨1, false⟩ = Except.error PubErr.valueError :=
  ⟨rfl, rfl⟩

/-- Claim C9. On a persistence file holding a well-formed JSON object
with all required keys but a `killswitch` value of `"on"`, which `int()`
cannot parse, `load` propagates the `ValueError` to the caller instead
of returning absent: only `JSONDecodeError` and `KeyError` are caught. -/
theorem c9_load_propagates_value_error_on_unparsable_killswitch :
    ConnectionPersistence.load malformedKillswitchFile
      = Except.error PersistErr.valueError := rfl

/-- Claim C10. An `Up` event received in `Disconnecting` returns the
same state object with `context.reconnection` overwritten in place by
the event's connection; hence when two `Up` events arrive during one
`Disconnecting` phase, the first queued replacement connection is
silently discarded — it is never started or stopped — and only the
connection of the last `Up` event is reconnected once `Disconnected`
arrives. -/
theorem c10_disconnecting_up_overwrites_reconnection :
    (∀ (ctx : StateContext) (e : Event), e.etype = EventType.up →
      (Disconnecting ctx).on_event e
        = Except.ok (Disconnecting { ctx with reconnection := e.connection }, true))
    ∧ vpnMachine.process_events 10 (Disconnecting ⟨none, some ⟨1, none⟩, none⟩)
          [⟨EventType.up, some ⟨2, none⟩⟩, ⟨EventType.up, some ⟨3, none⟩⟩,
           ⟨EventType.disconnected, some ⟨1, none⟩⟩]
        = some (Except.ok
            (Connecting ⟨some ⟨EventType.up, some ⟨3, none⟩⟩, some ⟨3, none⟩, none⟩,
             [Effect.unregister_callback ⟨1, none⟩, Effect.notify_subscribers,
              Effect.enable_ipv6_leak_protection ⟨3, none⟩, Effect.start ⟨3, none⟩,
              Effect.notify_subscribers]))
    ∧ Effect.start ⟨2, none⟩
        ∉ [Effect.unregister_callback ⟨1, none⟩, Effect.notify_subscribers,
           Effect.enable_ipv6_leak_protection ⟨3, none⟩, Effect.start ⟨3, none⟩,
           Effect.notify_subscribers]
    ∧ Effect.stop ⟨2, none⟩
        ∉ [Effect.unregister_callback ⟨1, none⟩, Effect.notify_subscribers,
           Effect.enable_ipv6_leak_protection ⟨3, none⟩, Effect.start ⟨3, none⟩,
           Effect.notify_subscribers] := by
  refine ⟨?_, rfl, by decide, by decide⟩
  intro ctx e he
  simp [State.on_event, State.onEventCore, Disconnecting, he]

/-- Witness for claim C10 at a concrete `Disconnecting` state and a
concrete `Up` event: the queued reconnection is overwritten in place. -/
theorem c10_disconnecting_up_overwrites_reconnection_witness :
    (Disconnecting ⟨none, some ⟨1, none⟩, none⟩).on_event ⟨EventType.up, some ⟨2, none⟩⟩
      = Except.ok (Disconnecting ⟨none, some ⟨1, none⟩, some ⟨2, none⟩⟩, true) :=
  c10_disconnecting_up_overwrites_reconnection.1
    ⟨none, some ⟨1, none⟩, none⟩ ⟨EventType.up, some ⟨2, none⟩⟩ rfl

end ProtonVPN
